import Mathlib

/-!
Shallow embedding of `src/realtime.c` — the Realtime portal of
xdg-desktop-portal.  The file models the three D-Bus handlers
(`handle_make_thread_realtime_with_pid`,
`handle_make_thread_high_priority_with_pid`, `handle_get_property`), the
PID-mapping helper `map_pid_if_needed`, and the two asynchronous
continuations `on_call_ready` and `on_get_property_ready`.

Each handler is embedded as a pure function from its D-Bus arguments plus
the environment's responses (the identity resolver's mapping result and the
privileged service's asynchronous reply) to an execution record that lists
the outbound call issued (if any) and every invocation of the inbound
request's completion sink (`g_dbus_method_invocation_return_gerror` /
`g_dbus_method_invocation_return_value`), in order.
-/

namespace Realtime

/-- Two's-complement signed interpretation of a `w`-bit wire word.
This is the effect of C's conversion of an unsigned value to a `w`-bit
signed integer type (gcc semantics: reduce modulo `2^w`, reinterpret). -/
def toSigned (w : Nat) (bits : Nat) : Int :=
  if bits % 2 ^ w < 2 ^ (w - 1) then ((bits % 2 ^ w : Nat) : Int)
  else ((bits % 2 ^ w : Nat) : Int) - ((2 ^ w : Nat) : Int)

/-- Two's-complement `w`-bit wire representation of a signed value.
This is the effect of C's conversion of a signed integer to a `w`-bit
unsigned integer type (reduction modulo `2^w`). -/
def toUnsigned (w : Nat) (v : Int) : Nat :=
  (v % ((2 : Int) ^ w)).toNat

/-- A GLib `GError`: error domain, code and human-readable message. -/
structure GError where
  domain : String
  code : Nat
  message : String
deriving DecidableEq

/-- Modelled from the spec: the generic portal error domain
(`XDG_DESKTOP_PORTAL_ERROR`), declared in a header outside `src/`.
Only its identity matters to the bridge. -/
def XDG_DESKTOP_PORTAL_ERROR : String := "org.freedesktop.portal.Error"

/-- Modelled from the spec: the generic "operation failed" error code
(`XDG_DESKTOP_PORTAL_ERROR_FAILED`), declared in a header outside `src/`.
Only its identity matters to the bridge. -/
def XDG_DESKTOP_PORTAL_ERROR_FAILED : Nat := 0

/-- The wire value wrapped in the variant returned by the privileged
service's property read.  Integer constructors carry the raw wire word
(`bits`), so that signedness is a matter of interpretation, as on the
wire. -/
inductive GVariantValue where
  | vint64 (bits : Nat)
  | vint32 (bits : Nat)
  | vstring (s : String)
  | vboolean (b : Bool)
deriving DecidableEq

/-- Discriminates the two integer wire tags recognised by
`on_get_property_ready` (the `g_variant_is_of_type` tests against
`G_VARIANT_TYPE_INT64` and `G_VARIANT_TYPE_INT32`). -/
def GVariantValue.isIntType : GVariantValue → Bool
  | .vint64 _ => true
  | .vint32 _ => true
  | _ => false

/-- One invocation of an inbound request's completion sink:
`gerror e` is `g_dbus_method_invocation_return_gerror`, `empty` is
`return_value` with the unit tuple `"()"`, `int64 v` is `return_value`
with the one-element tuple `"(x)"`. -/
inductive Completion where
  | gerror (e : GError)
  | empty
  | int64 (v : Int)
deriving DecidableEq

/-- The outbound `g_dbus_proxy_call` issued by the two set-thread
handlers: verb name and the `"(ttu)"` argument tuple.  `pid` is the
`pid_t` value placed in the first slot (possibly remapped), `tid` the
`guint64` second slot, `priority_bits` the raw `guint32` third slot. -/
structure OutboundCall where
  verb : String
  pid : Int
  tid : Nat
  priority_bits : Nat
deriving DecidableEq

/-- The outbound `g_dbus_proxy_call` issued by `handle_get_property`:
verb name and the `"(ss)"` argument tuple. -/
structure PropertyCall where
  verb : String
  iface : String
  prop : String
deriving DecidableEq

/-- The caller's identity (`XdpAppInfo`), as consumed by the bridge:
whether the caller is host-resident (`xdp_app_info_is_host`) and the
identity resolver's PID-mapping operation (`xdg_app_info_map_pids`,
restricted to the one-element arrays the bridge uses), which either
rewrites the pid or fails with a `GError`. -/
structure XdpAppInfo where
  is_host : Bool
  map_pid : Int → Except GError Int

/-- Execution record of one set-thread inbound request: the outbound
call issued (`none` when mapping failed) and every completion-sink
invocation, in order. -/
structure SetThreadExec where
  outbound : Option OutboundCall
  completions : List Completion

/-- Execution record of one GetProperty inbound request. -/
structure GetPropertyExec where
  outbound : PropertyCall
  completions : List Completion

/-- `map_pid_if_needed` from `realtime.c`: host-resident callers skip
mapping and keep their pid; otherwise the resolver's mapping runs and, on
failure, its error message receives the `"Could not map pid: "` prefix
(`g_prefix_error`). -/
def map_pid_if_needed (app_info : XdpAppInfo) (pid : Int) : Except GError Int :=
  if app_info.is_host then Except.ok pid
  else
    match app_info.map_pid pid with
    | Except.ok mapped => Except.ok mapped
    | Except.error e =>
        Except.error { e with message := "Could not map pid: " ++ e.message }

/-- `on_call_ready` from `realtime.c`: relay an upstream error verbatim
via `return_gerror`, otherwise complete with the empty tuple `"()"`. -/
def on_call_ready (upstream : Except GError Unit) : Completion :=
  match upstream with
  | Except.error e => Completion.gerror e
  | Except.ok _ => Completion.empty

/-- `handle_make_thread_realtime_with_pid` from `realtime.c`.  The
`guint64 process` argument is narrowed through `pid_t` (a 32-bit signed
integer) by `pid_t pids[1] = { process }`; on mapping failure the
invocation is completed with the mapping error and no proxy call is made;
otherwise `MakeThreadRealtimeWithPID` is called with `"(ttu)"` arguments
`(pids[0], thread, priority)` and `on_call_ready` completes the
invocation when the upstream reply arrives. -/
def handle_make_thread_realtime_with_pid (app_info : XdpAppInfo)
    (process thread priority : Nat)
    (upstream : Except GError Unit) : SetThreadExec :=
  match map_pid_if_needed app_info (toSigned 32 process) with
  | Except.error e => { outbound := none, completions := [Completion.gerror e] }
  | Except.ok pid0 =>
      { outbound := some { verb := "MakeThreadRealtimeWithPID", pid := pid0,
                           tid := thread, priority_bits := priority },
        completions := [on_call_ready upstream] }

/-- `handle_make_thread_high_priority_with_pid` from `realtime.c`.
Identical to the realtime handler except that `priority` is declared
`gint32`; it is nevertheless packed into the unsigned `"u"` wire slot of
the same `MakeThreadRealtimeWithPID` call, i.e. reduced modulo `2^32`. -/
def handle_make_thread_high_priority_with_pid (app_info : XdpAppInfo)
    (process thread : Nat) (priority : Int)
    (upstream : Except GError Unit) : SetThreadExec :=
  match map_pid_if_needed app_info (toSigned 32 process) with
  | Except.error e => { outbound := none, completions := [Completion.gerror e] }
  | Except.ok pid0 =>
      { outbound := some { verb := "MakeThreadRealtimeWithPID", pid := pid0,
                           tid := thread, priority_bits := toUnsigned 32 priority },
        completions := [on_call_ready upstream] }

/-- `on_get_property_ready` from `realtime.c`: an upstream error is
relayed verbatim; otherwise the variant child of the response is
inspected: an int64 is returned as-is, an int32 is read as `gint32` and
assigned to the `gint64 ret` (sign extension), and any other wire tag
completes the invocation with the literal error message of the source,
`"Invalid response type recieved"` (sic). -/
def on_get_property_ready (upstream : Except GError GVariantValue) : Completion :=
  match upstream with
  | Except.error e => Completion.gerror e
  | Except.ok child =>
      match child with
      | GVariantValue.vint64 bits => Completion.int64 (toSigned 64 bits)
      | GVariantValue.vint32 bits => Completion.int64 (toSigned 32 bits)
      | _ => Completion.gerror { domain := XDG_DESKTOP_PORTAL_ERROR,
                                 code := XDG_DESKTOP_PORTAL_ERROR_FAILED,
                                 message := "Invalid response type recieved" }

/-- `handle_get_property` from `realtime.c`: unconditionally calls the
generic property-read verb with the fixed RealtimeKit interface name and
the caller's property name; `on_get_property_ready` completes the
invocation when the upstream reply arrives. -/
def handle_get_property (property_name : String)
    (upstream : Except GError GVariantValue) : GetPropertyExec :=
  { outbound := { verb := "org.freedesktop.DBus.Properties.Get",
                  iface := "org.freedesktop.RealtimeKit1",
                  prop := property_name },
    completions := [on_get_property_ready upstream] }

/-- A host-resident caller whose (never consulted) mapping is the
identity. -/
def hostApp : XdpAppInfo :=
  { is_host := true, map_pid := fun p => Except.ok p }

/-- A host-resident caller whose (never consulted) mapping always
fails. -/
def hostAppFailingMap : XdpAppInfo :=
  { is_host := true,
    map_pid := fun _ =>
      Except.error { domain := "g-io-error-quark", code := 1, message := "boom" } }

/-- The identity resolver's error used by the concrete sandboxed test
callers below. -/
def noSuchProcessError : GError :=
  { domain := "g-io-error-quark", code := 1, message := "No such process" }

/-- An upstream-service error used by concrete test instantiations. -/
def testError : GError :=
  { domain := "org.freedesktop.DBus.Error.Failed", code := 2,
    message := "rtkit rejected the request" }

/-- A sandboxed caller whose PID mapping always fails. -/
def sandboxFailApp : XdpAppInfo :=
  { is_host := false, map_pid := fun _ => Except.error noSuchProcessError }

/-- A sandboxed caller mapping the caller-local pid 42 to the
host-global pid 9001 and failing on every other pid. -/
def sandboxMapApp : XdpAppInfo :=
  { is_host := false,
    map_pid := fun p =>
      if p = 42 then Except.ok 9001 else Except.error noSuchProcessError }

/-- A value in signed 32-bit range survives the round trip through its
two's-complement wire word. -/
lemma toSigned_toUnsigned_32 (v : Int) (hlo : -(2 ^ 31) ≤ v) (hhi : v < 2 ^ 31) :
    toSigned 32 (toUnsigned 32 v) = v := by
  simp only [toSigned, toUnsigned]
  norm_num
  split <;> omega

/-- A value in signed 64-bit range survives the round trip through its
two's-complement wire word. -/
lemma toSigned_toUnsigned_64 (v : Int) (hlo : -(2 ^ 63) ≤ v) (hhi : v < 2 ^ 63) :
    toSigned 64 (toUnsigned 64 v) = v := by
  simp only [toSigned, toUnsigned]
  norm_num
  split <;> omega

/-- A 32-bit wire word survives the round trip through its signed
interpretation. -/
lemma toUnsigned_toSigned_32 (u : Nat) (hu : u < 2 ^ 32) :
    toUnsigned 32 (toSigned 32 u) = u := by
  simp only [toSigned, toUnsigned]
  norm_num
  split <;> omega

/-- The 32-bit wire word of a signed value is its nonnegative residue
modulo `2^32`. -/
lemma toUnsigned_32_eq_emod (p : Int) : ((toUnsigned 32 p : Nat) : Int) = p % 2 ^ 32 := by
  simp only [toUnsigned]
  norm_num
  omega

/-- C1: every inbound request to any of the three operations
(SetThreadRealtime, SetThreadHighPriority, GetProperty) invokes its
completion sink exactly once — never zero times, never twice — on every
execution path: mapping failure, upstream success, upstream failure and
property-coercion failure. -/
theorem C1_completion_exactly_once (app_info : XdpAppInfo)
    (process thread prio_u : Nat) (prio_s : Int) (property_name : String)
    (up : Except GError Unit) (upv : Except GError GVariantValue) :
    (handle_make_thread_realtime_with_pid app_info process thread prio_u up).completions.length = 1 ∧
    (handle_make_thread_high_priority_with_pid app_info process thread prio_s up).completions.length = 1 ∧
    (handle_get_property property_name upv).completions.length = 1 := by
  refine ⟨?_, ?_, rfl⟩
  · unfold handle_make_thread_realtime_with_pid
    cases map_pid_if_needed app_info (toSigned 32 process) <;> rfl
  · unfold handle_make_thread_high_priority_with_pid
    cases map_pid_if_needed app_info (toSigned 32 process) <;> rfl

/-- C2 counterexample: a host-resident caller supplying processId `2^31`
does not see that processId forwarded unchanged — the handler narrows it
through `pid_t`, and the outbound call carries `-2^31`. -/
theorem C2_counterexample :
    (handle_make_thread_realtime_with_pid hostApp 2147483648 7 10 (Except.ok ())).outbound =
      some { verb := "MakeThreadRealtimeWithPID", pid := -2147483648, tid := 7,
             priority_bits := 10 } ∧
    (-2147483648 : Int) ≠ 2147483648 := by
  exact ⟨rfl, by decide⟩

/-- C2 (amended): for host-resident callers, SetThreadRealtime and
SetThreadHighPriority never invoke the PID-mapping operation (the
execution is independent of the identity's mapping function), and the
outbound call's process-id argument is the supplied processId narrowed
through `pid_t`; whenever the processId is below `2^31` that narrowed
value is the processId unchanged. -/
theorem C2_host_no_mapping_pid_forwarded (a b : XdpAppInfo)
    (process thread prio_u : Nat) (prio_s : Int) (up : Except GError Unit)
    (ha : a.is_host = true) (hb : b.is_host = true) :
    handle_make_thread_realtime_with_pid a process thread prio_u up =
      handle_make_thread_realtime_with_pid b process thread prio_u up ∧
    handle_make_thread_high_priority_with_pid a process thread prio_s up =
      handle_make_thread_high_priority_with_pid b process thread prio_s up ∧
    (handle_make_thread_realtime_with_pid a process thread prio_u up).outbound =
      some { verb := "MakeThreadRealtimeWithPID", pid := toSigned 32 process,
             tid := thread, priority_bits := prio_u } ∧
    (handle_make_thread_high_priority_with_pid a process thread prio_s up).outbound =
      some { verb := "MakeThreadRealtimeWithPID", pid := toSigned 32 process,
             tid := thread, priority_bits := toUnsigned 32 prio_s } ∧
    (process < 2 ^ 31 → toSigned 32 process = (process : Int)) := by
  have hmA : map_pid_if_needed a (toSigned 32 process) = Except.ok (toSigned 32 process) := by
    simp [map_pid_if_needed, ha]
  have hmB : map_pid_if_needed b (toSigned 32 process) = Except.ok (toSigned 32 process) := by
    simp [map_pid_if_needed, hb]
  refine ⟨?_, ?_, ?_, ?_, ?_⟩
  · simp [handle_make_thread_realtime_with_pid, hmA, hmB]
  · simp [handle_make_thread_high_priority_with_pid, hmA, hmB]
  · simp [handle_make_thread_realtime_with_pid, hmA]
  · simp [handle_make_thread_high_priority_with_pid, hmA]
  · intro h
    simp only [toSigned]
    norm_num
    omega

/-- C2 witness: the amended theorem instantiated at two concrete
host-resident identities with different mapping functions. -/
theorem C2_host_no_mapping_pid_forwarded_witness :
    handle_make_thread_realtime_with_pid hostApp 5 7 10 (Except.ok ()) =
      handle_make_thread_realtime_with_pid hostAppFailingMap 5 7 10 (Except.ok ()) ∧
    handle_make_thread_high_priority_with_pid hostApp 5 7 (-3) (Except.ok ()) =
      handle_make_thread_high_priority_with_pid hostAppFailingMap 5 7 (-3) (Except.ok ()) ∧
    (handle_make_thread_realtime_with_pid hostApp 5 7 10 (Except.ok ())).outbound =
      some { verb := "MakeThreadRealtimeWithPID", pid := toSigned 32 5, tid := 7,
             priority_bits := 10 } ∧
    (handle_make_thread_high_priority_with_pid hostApp 5 7 (-3) (Except.ok ())).outbound =
      some { verb := "MakeThreadRealtimeWithPID", pid := toSigned 32 5, tid := 7,
             priority_bits := toUnsigned 32 (-3) } ∧
    (5 < 2 ^ 31 → toSigned 32 5 = (5 : Int)) :=
  C2_host_no_mapping_pid_forwarded hostApp hostAppFailingMap 5 7 10 (-3)
    (Except.ok ()) rfl rfl

/-- C3: for a sandboxed caller whose PID mapping fails, both set-thread
handlers issue no outbound call and complete the inbound request with the
mapping error, whose message starts with the prefix
"Could not map pid: ". -/
theorem C3_mapping_failure_no_outbound (app_info : XdpAppInfo)
    (process thread prio_u : Nat) (prio_s : Int) (up : Except GError Unit)
    (e : GError)
    (hs : app_info.is_host = false)
    (hm : app_info.map_pid (toSigned 32 process) = Except.error e) :
    (handle_make_thread_realtime_with_pid app_info process thread prio_u up).outbound = none ∧
    (handle_make_thread_realtime_with_pid app_info process thread prio_u up).completions =
      [Completion.gerror { e with message := "Could not map pid: " ++ e.message }] ∧
    (handle_make_thread_high_priority_with_pid app_info process thread prio_s up).outbound = none ∧
    (handle_make_thread_high_priority_with_pid app_info process thread prio_s up).completions =
      [Completion.gerror { e with message := "Could not map pid: " ++ e.message }] ∧
    ∃ rest, "Could not map pid: " ++ e.message = "Could not map pid: " ++ rest := by
  have hmap : map_pid_if_needed app_info (toSigned 32 process) =
      Except.error { e with message := "Could not map pid: " ++ e.message } := by
    simp [map_pid_if_needed, hs, hm]
  refine ⟨?_, ?_, ?_, ?_, ⟨e.message, rfl⟩⟩
  · simp [handle_make_thread_realtime_with_pid, hmap]
  · simp [handle_make_thread_realtime_with_pid, hmap]
  · simp [handle_make_thread_high_priority_with_pid, hmap]
  · simp [handle_make_thread_high_priority_with_pid, hmap]

/-- C3 witness: the mapping-failure theorem at a concrete sandboxed
caller whose resolver rejects every pid. -/
theorem C3_mapping_failure_no_outbound_witness :
    (handle_make_thread_realtime_with_pid sandboxFailApp 42 7 10 (Except.ok ())).outbound = none ∧
    (handle_make_thread_realtime_with_pid sandboxFailApp 42 7 10 (Except.ok ())).completions =
      [Completion.gerror { noSuchProcessError with
          message := "Could not map pid: " ++ noSuchProcessError.message }] ∧
    (handle_make_thread_high_priority_with_pid sandboxFailApp 42 7 (-3) (Except.ok ())).outbound = none ∧
    (handle_make_thread_high_priority_with_pid sandboxFailApp 42 7 (-3) (Except.ok ())).completions =
      [Completion.gerror { noSuchProcessError with
          message := "Could not map pid: " ++ noSuchProcessError.message }] ∧
    ∃ rest, "Could not map pid: " ++ noSuchProcessError.message = "Could not map pid: " ++ rest :=
  C3_mapping_failure_no_outbound sandboxFailApp 42 7 10 (-3) (Except.ok ())
    noSuchProcessError rfl rfl

/-- C4: for a sandboxed caller whose PID mapping succeeds, the outbound
call's process-id argument is the mapped host-global pid — the value the
mapping wrote in place — not the original caller-local processId. -/
theorem C4_mapped_pid_forwarded (app_info : XdpAppInfo)
    (process thread prio_u : Nat) (prio_s : Int) (up : Except GError Unit)
    (m : Int)
    (hs : app_info.is_host = false)
    (hm : app_info.map_pid (toSigned 32 process) = Except.ok m) :
    (handle_make_thread_realtime_with_pid app_info process thread prio_u up).outbound =
      some { verb := "MakeThreadRealtimeWithPID", pid := m, tid := thread,
             priority_bits := prio_u } ∧
    (handle_make_thread_high_priority_with_pid app_info process thread prio_s up).outbound =
      some { verb := "MakeThreadRealtimeWithPID", pid := m, tid := thread,
             priority_bits := toUnsigned 32 prio_s } ∧
    (handle_make_thread_realtime_with_pid app_info process thread prio_u up).completions =
      [on_call_ready up] := by
  have hmap : map_pid_if_needed app_info (toSigned 32 process) = Except.ok m := by
    simp [map_pid_if_needed, hs, hm]
  refine ⟨?_, ?_, ?_⟩
  · simp [handle_make_thread_realtime_with_pid, hmap]
  · simp [handle_make_thread_high_priority_with_pid, hmap]
  · simp [handle_make_thread_realtime_with_pid, hmap]

/-- C4 witness: the end-to-end example of the spec — a sandboxed caller
with localPid 42, tid 7, priority 10 and mapping 42 → 9001 issues the
outbound call (9001, 7, 10), and the successful upstream reply completes
the request with the empty success value. -/
theorem C4_mapped_pid_forwarded_witness :
    (handle_make_thread_realtime_with_pid sandboxMapApp 42 7 10 (Except.ok ())).outbound =
      some { verb := "MakeThreadRealtimeWithPID", pid := 9001, tid := 7,
             priority_bits := 10 } ∧
    (handle_make_thread_high_priority_with_pid sandboxMapApp 42 7 (-3) (Except.ok ())).outbound =
      some { verb := "MakeThreadRealtimeWithPID", pid := 9001, tid := 7,
             priority_bits := toUnsigned 32 (-3) } ∧
    (handle_make_thread_realtime_with_pid sandboxMapApp 42 7 10 (Except.ok ())).completions =
      [Completion.empty] :=
  C4_mapped_pid_forwarded sandboxMapApp 42 7 10 (-3) (Except.ok ()) 9001 rfl rfl

/-- C5: when the privileged service's reply to an issued set-thread
outbound call arrives, an error reply completes the inbound request with
that same error verbatim and a success reply completes it with the empty
success value. -/
theorem C5_upstream_result_relayed (app_info : XdpAppInfo)
    (process thread prio_u : Nat) (prio_s : Int) (e : GError)
    (up : Except GError Unit) :
    on_call_ready (Except.error e) = Completion.gerror e ∧
    on_call_ready (Except.ok ()) = Completion.empty ∧
    ((handle_make_thread_realtime_with_pid app_info process thread prio_u up).outbound.isSome = true →
      (handle_make_thread_realtime_with_pid app_info process thread prio_u up).completions =
        [on_call_ready up]) ∧
    ((handle_make_thread_high_priority_with_pid app_info process thread prio_s up).outbound.isSome = true →
      (handle_make_thread_high_priority_with_pid app_info process thread prio_s up).completions =
        [on_call_ready up]) := by
  refine ⟨rfl, rfl, ?_, ?_⟩
  · unfold handle_make_thread_realtime_with_pid
    cases map_pid_if_needed app_info (toSigned 32 process) <;> simp
  · unfold handle_make_thread_high_priority_with_pid
    cases map_pid_if_needed app_info (toSigned 32 process) <;> simp

/-- C5 witness: the relay theorem at a host caller, once under an
upstream error reply and once under an upstream success reply. -/
theorem C5_upstream_result_relayed_witness :
    on_call_ready (Except.error testError) = Completion.gerror testError ∧
    on_call_ready (Except.ok ()) = Completion.empty ∧
    (handle_make_thread_realtime_with_pid hostApp 5 7 10 (Except.error testError)).completions =
      [on_call_ready (Except.error testError)] ∧
    (handle_make_thread_high_priority_with_pid hostApp 5 7 (-3) (Except.ok ())).completions =
      [on_call_ready (Except.ok ())] :=
  ⟨(C5_upstream_result_relayed hostApp 5 7 10 (-3) testError (Except.error testError)).1,
   (C5_upstream_result_relayed hostApp 5 7 10 (-3) testError (Except.error testError)).2.1,
   (C5_upstream_result_relayed hostApp 5 7 10 (-3) testError (Except.error testError)).2.2.1 rfl,
   (C5_upstream_result_relayed hostApp 5 7 10 (-3) testError (Except.ok ())).2.2.2 rfl⟩

/-- C6: a GetProperty reply wrapping a 64-bit signed integer completes
the request successfully with that value unchanged, and a reply wrapping
a 32-bit signed integer completes it with the value sign-extended to 64
bits. -/
theorem C6_integer_coercion (property_name1 property_name2 : String) (v64 v32 : Int)
    (h64lo : -(2 ^ 63) ≤ v64) (h64hi : v64 < 2 ^ 63)
    (h32lo : -(2 ^ 31) ≤ v32) (h32hi : v32 < 2 ^ 31) :
    (handle_get_property property_name1
        (Except.ok (GVariantValue.vint64 (toUnsigned 64 v64)))).completions =
      [Completion.int64 v64] ∧
    (handle_get_property property_name2
        (Except.ok (GVariantValue.vint32 (toUnsigned 32 v32)))).completions =
      [Completion.int64 v32] := by
  constructor
  · simp [handle_get_property, on_get_property_ready,
          toSigned_toUnsigned_64 v64 h64lo h64hi]
  · simp [handle_get_property, on_get_property_ready,
          toSigned_toUnsigned_32 v32 h32lo h32hi]

/-- C6 witness: the coercion theorem at the spec's examples — an int64
reply 9000000000 yields 9000000000 unchanged, and an int32 reply -5
(wire word 4294967291) yields int64 -5. -/
theorem C6_integer_coercion_witness :
    (handle_get_property "RTTimeUSecMax"
        (Except.ok (GVariantValue.vint64 (toUnsigned 64 9000000000)))).completions =
      [Completion.int64 9000000000] ∧
    (handle_get_property "MinNiceLevel"
        (Except.ok (GVariantValue.vint32 (toUnsigned 32 (-5))))).completions =
      [Completion.int64 (-5)] :=
  C6_integer_coercion "RTTimeUSecMax" "MinNiceLevel" 9000000000 (-5)
    (by decide) (by decide) (by decide) (by decide)

/-- C7 counterexample: a GetProperty reply wrapping a string is answered
with the source's literal message "Invalid response type recieved"
(sic), which is not the claimed message "Invalid response type
received". -/
theorem C7_counterexample :
    (handle_get_property "MinNiceLevel"
        (Except.ok (GVariantValue.vstring "abc"))).completions =
      [Completion.gerror { domain := XDG_DESKTOP_PORTAL_ERROR,
                           code := XDG_DESKTOP_PORTAL_ERROR_FAILED,
                           message := "Invalid response type recieved" }] ∧
    "Invalid response type recieved" ≠ "Invalid response type received" :=
  ⟨rfl, by decide⟩

/-- C7 (amended): a GetProperty reply wrapping a value of any wire type
other than int32 or int64 completes the inbound request with the generic
"operation failed" error whose message is exactly the source's literal
"Invalid response type recieved" (sic, misspelled in `realtime.c`), and
no success value is emitted. -/
theorem C7_invalid_wire_type (property_name : String) (child : GVariantValue)
    (h : child.isIntType = false) :
    (handle_get_property property_name (Except.ok child)).completions =
      [Completion.gerror { domain := XDG_DESKTOP_PORTAL_ERROR,
                           code := XDG_DESKTOP_PORTAL_ERROR_FAILED,
                           message := "Invalid response type recieved" }] ∧
    ((handle_get_property property_name (Except.ok child)).completions.all
      (fun c => match c with
                | Completion.gerror _ => true
                | _ => false)) = true := by
  cases child <;>
    simp_all [handle_get_property, on_get_property_ready, GVariantValue.isIntType]

/-- C7 witness: the amended theorem at a concrete string-typed reply. -/
theorem C7_invalid_wire_type_witness :
    (GVariantValue.vstring "abc").isIntType = false ∧
    (handle_get_property "MaxRealtimePriority"
        (Except.ok (GVariantValue.vstring "abc"))).completions =
      [Completion.gerror { domain := XDG_DESKTOP_PORTAL_ERROR,
                           code := XDG_DESKTOP_PORTAL_ERROR_FAILED,
                           message := "Invalid response type recieved" }] ∧
    ((handle_get_property "MaxRealtimePriority"
        (Except.ok (GVariantValue.vstring "abc"))).completions.all
      (fun c => match c with
                | Completion.gerror _ => true
                | _ => false)) = true :=
  ⟨rfl,
   (C7_invalid_wire_type "MaxRealtimePriority" (GVariantValue.vstring "abc") rfl).1,
   (C7_invalid_wire_type "MaxRealtimePriority" (GVariantValue.vstring "abc") rfl).2⟩

/-- C8: the two set-thread handlers target the same privileged-service
verb MakeThreadRealtimeWithPID and build the same (pid, tid,
priority-bits) argument tuple, differing only in the declared signedness
of the priority parameter: the realtime handler at an unsigned priority
word behaves exactly like the high-priority handler at the signed
reinterpretation of that word, on every input. -/
theorem C8_same_verb_same_arguments (app_info : XdpAppInfo)
    (process thread u : Nat) (up : Except GError Unit) (c c2 : OutboundCall)
    (hu : u < 2 ^ 32) :
    handle_make_thread_realtime_with_pid app_info process thread u up =
      handle_make_thread_high_priority_with_pid app_info process thread (toSigned 32 u) up ∧
    ((handle_make_thread_realtime_with_pid app_info process thread u up).outbound = some c →
      c.verb = "MakeThreadRealtimeWithPID") ∧
    ((handle_make_thread_high_priority_with_pid app_info process thread (toSigned 32 u) up).outbound = some c2 →
      c2.verb = "MakeThreadRealtimeWithPID") := by
  have hbits : toUnsigned 32 (toSigned 32 u) = u := toUnsigned_toSigned_32 u hu
  refine ⟨?_, ?_, ?_⟩
  · unfold handle_make_thread_realtime_with_pid handle_make_thread_high_priority_with_pid
    rw [hbits]
  · intro h
    unfold handle_make_thread_realtime_with_pid at h
    revert h
    cases map_pid_if_needed app_info (toSigned 32 process) <;> intro h
    · exact Option.noConfusion h
    · have h2 := Option.some.inj h
      subst h2
      rfl
  · intro h
    unfold handle_make_thread_high_priority_with_pid at h
    revert h
    cases map_pid_if_needed app_info (toSigned 32 process) <;> intro h
    · exact Option.noConfusion h
    · have h2 := Option.some.inj h
      subst h2
      rfl

/-- C8 witness: the equivalence theorem at the unsigned priority word
4294967291, whose signed reinterpretation is -5. -/
theorem C8_same_verb_same_arguments_witness :
    handle_make_thread_realtime_with_pid hostApp 5 7 4294967291 (Except.ok ()) =
      handle_make_thread_high_priority_with_pid hostApp 5 7 (-5) (Except.ok ()) ∧
    (handle_make_thread_realtime_with_pid hostApp 5 7 4294967291 (Except.ok ())).outbound =
      some { verb := "MakeThreadRealtimeWithPID", pid := 5, tid := 7,
             priority_bits := 4294967291 } ∧
    ({ verb := "MakeThreadRealtimeWithPID", pid := 5, tid := 7,
       priority_bits := 4294967291 } : OutboundCall).verb = "MakeThreadRealtimeWithPID" :=
  ⟨(C8_same_verb_same_arguments hostApp 5 7 4294967291 (Except.ok ())
      { verb := "MakeThreadRealtimeWithPID", pid := 5, tid := 7, priority_bits := 4294967291 }
      { verb := "MakeThreadRealtimeWithPID", pid := 5, tid := 7, priority_bits := 4294967291 }
      (by decide)).1,
   rfl,
   (C8_same_verb_same_arguments hostApp 5 7 4294967291 (Except.ok ())
      { verb := "MakeThreadRealtimeWithPID", pid := 5, tid := 7, priority_bits := 4294967291 }
      { verb := "MakeThreadRealtimeWithPID", pid := 5, tid := 7, priority_bits := 4294967291 }
      (by decide)).2.1 rfl⟩

/-- C9: the caller-supplied 64-bit processId is narrowed through the
32-bit signed `pid_t` before mapping and forwarding: for a sandboxed
caller each handler hands exactly the narrowed pid to the mapping
operation, the narrowed pid equals the processId reduced modulo `2^32`
and reinterpreted as a signed 32-bit integer, and for processId `2^31` a
host caller's forwarded pid (-2^31) differs from the supplied
processId. -/
theorem C9_pid_narrowed_through_pid_t (app_info : XdpAppInfo)
    (process thread prio_u : Nat) (prio_s : Int) (up : Except GError Unit)
    (r : Except GError Int)
    (hs : app_info.is_host = false)
    (hm : app_info.map_pid (toSigned 32 process) = r) :
    (handle_make_thread_realtime_with_pid app_info process thread prio_u up =
      match r with
      | Except.error e =>
          { outbound := none,
            completions := [Completion.gerror
              { e with message := "Could not map pid: " ++ e.message }] }
      | Except.ok m =>
          { outbound := some { verb := "MakeThreadRealtimeWithPID", pid := m,
                               tid := thread, priority_bits := prio_u },
            completions := [on_call_ready up] }) ∧
    (handle_make_thread_high_priority_with_pid app_info process thread prio_s up =
      match r with
      | Except.error e =>
          { outbound := none,
            completions := [Completion.gerror
              { e with message := "Could not map pid: " ++ e.message }] }
      | Except.ok m =>
          { outbound := some { verb := "MakeThreadRealtimeWithPID", pid := m,
                               tid := thread, priority_bits := toUnsigned 32 prio_s },
            completions := [on_call_ready up] }) ∧
    toSigned 32 process =
      (if process % 2 ^ 32 < 2 ^ 31 then ((process % 2 ^ 32 : Nat) : Int)
       else ((process % 2 ^ 32 : Nat) : Int) - 2 ^ 32) ∧
    ((handle_make_thread_realtime_with_pid hostApp 2147483648 7 10 (Except.ok ())).outbound =
      some { verb := "MakeThreadRealtimeWithPID", pid := -2147483648, tid := 7,
             priority_bits := 10 } ∧
     (-2147483648 : Int) ≠ ((2147483648 : Nat) : Int)) := by
  have hmap : map_pid_if_needed app_info (toSigned 32 process) =
      match r with
      | Except.error e =>
          Except.error { e with message := "Could not map pid: " ++ e.message }
      | Except.ok m => Except.ok m := by
    simp only [map_pid_if_needed, hs, hm]
    cases r <;> simp
  refine ⟨?_, ?_, ?_, rfl, by decide⟩
  · unfold handle_make_thread_realtime_with_pid
    rw [hmap]
    cases r <;> rfl
  · unfold handle_make_thread_high_priority_with_pid
    rw [hmap]
    cases r <;> rfl
  · simp only [toSigned]
    norm_num

/-- C9 witness: the narrowing theorem at the sandboxed caller mapping
42 → 9001, with processId 42 (below `2^31`, so narrowed to itself). -/
theorem C9_pid_narrowed_through_pid_t_witness :
    (handle_make_thread_realtime_with_pid sandboxMapApp 42 7 10 (Except.ok ()) =
      { outbound := some { verb := "MakeThreadRealtimeWithPID", pid := 9001,
                           tid := 7, priority_bits := 10 },
        completions := [on_call_ready (Except.ok ())] }) ∧
    (handle_make_thread_high_priority_with_pid sandboxMapApp 42 7 (-3) (Except.ok ()) =
      { outbound := some { verb := "MakeThreadRealtimeWithPID", pid := 9001,
                           tid := 7, priority_bits := toUnsigned 32 (-3) },
        completions := [on_call_ready (Except.ok ())] }) ∧
    toSigned 32 42 =
      (if 42 % 2 ^ 32 < 2 ^ 31 then ((42 % 2 ^ 32 : Nat) : Int)
       else ((42 % 2 ^ 32 : Nat) : Int) - 2 ^ 32) ∧
    ((handle_make_thread_realtime_with_pid hostApp 2147483648 7 10 (Except.ok ())).outbound =
      some { verb := "MakeThreadRealtimeWithPID", pid := -2147483648, tid := 7,
             priority_bits := 10 } ∧
     (-2147483648 : Int) ≠ ((2147483648 : Nat) : Int)) :=
  C9_pid_narrowed_through_pid_t sandboxMapApp 42 7 10 (-3) (Except.ok ())
    (Except.ok 9001) rfl rfl

/-- C10: in SetThreadHighPriority the signed 32-bit priority is packed
into the unsigned `"u"` wire slot of the outbound call: the forwarded
wire word is the priority reduced modulo `2^32`, so a negative priority
p arrives at the privileged service as the large unsigned value
`2^32 + p`; in particular -5 is forwarded as 4294967291. -/
theorem C10_priority_packed_unsigned (app_info : XdpAppInfo)
    (process thread : Nat) (p : Int) (up : Except GError Unit)
    (hs : app_info.is_host = true) :
    (handle_make_thread_high_priority_with_pid app_info process thread p up).outbound =
      some { verb := "MakeThreadRealtimeWithPID", pid := toSigned 32 process,
             tid := thread, priority_bits := toUnsigned 32 p } ∧
    ((toUnsigned 32 p : Nat) : Int) = p % 2 ^ 32 ∧
    (p < 0 → -(2 ^ 31) ≤ p → ((toUnsigned 32 p : Nat) : Int) = 2 ^ 32 + p) ∧
    toUnsigned 32 (-5) = 4294967291 := by
  have hmap : map_pid_if_needed app_info (toSigned 32 process) =
      Except.ok (toSigned 32 process) := by
    simp [map_pid_if_needed, hs]
  refine ⟨?_, toUnsigned_32_eq_emod p, ?_, by decide⟩
  · simp [handle_make_thread_high_priority_with_pid, hmap]
  · intro hneg hlo
    have h := toUnsigned_32_eq_emod p
    rw [h]
    omega

/-- C10 witness: the packing theorem at the concrete priority -5, whose
wire word is 4294967291 = 2^32 - 5. -/
theorem C10_priority_packed_unsigned_witness :
    (handle_make_thread_high_priority_with_pid hostApp 5 7 (-5) (Except.ok ())).outbound =
      some { verb := "MakeThreadRealtimeWithPID", pid := toSigned 32 5, tid := 7,
             priority_bits := toUnsigned 32 (-5) } ∧
    ((toUnsigned 32 (-5) : Nat) : Int) = (-5) % 2 ^ 32 ∧
    ((toUnsigned 32 (-5) : Nat) : Int) = 2 ^ 32 + (-5) ∧
    toUnsigned 32 (-5) = 4294967291 :=
  ⟨(C10_priority_packed_unsigned hostApp 5 7 (-5) (Except.ok ()) rfl).1,
   (C10_priority_packed_unsigned hostApp 5 7 (-5) (Except.ok ()) rfl).2.1,
   (C10_priority_packed_unsigned hostApp 5 7 (-5) (Except.ok ()) rfl).2.2.1
     (by decide) (by decide),
   (C10_priority_packed_unsigned hostApp 5 7 (-5) (Except.ok ()) rfl).2.2.2⟩

end Realtime
